import Mathlib

/-!
Shallow embedding of `server/http_server.go` from the repository
`PeterJohnBishop/automatic-fiesta-go`, together with a verification of the
specification's claims about the authentication flow (register, login,
two-factor, protected, logout).

Go strings are Lean `String`s with `""` as the zero value; the global
`users` map (`map[string]Login`, line 19 of the source) is an association
list from email to `Login` with Go-map read/write semantics; `time.Now()`
is an explicit `now : Nat` argument (seconds); the cryptographic
collaborators (`hashedPassword`, `checkPasswordHash`, `generateToken`,
`generateSecretKey`, `verifyTOTP`) are not in the provided sources and are
passed in as parameters: token generation becomes an explicit fresh-token
argument, hashing and verification become function parameters, and
`generateSecretKey`'s fallible result becomes an `Option` parameter.
-/

namespace Server

/-- One user record, mirroring the `Login` struct of the source (lines
11-17): five Go strings, each defaulting to the zero value `""` when a
field is omitted from a composite literal. -/
structure Login where
  HashedPassword    : String
  SessionToken      : String
  CSRFToken         : String
  Pending_2fa_Token : String
  TOTPSecret        : String
  deriving DecidableEq, Repr

/-- The identity store: the global `users map[string]Login` (line 19),
embedded as an association list from email to `Login`. -/
abbrev UsersMap := List (String × Login)

/-- Go map read `users[email]`: the value stored under the first matching
key, if any. -/
def lookupUser : UsersMap → String → Option Login
  | [], _ => none
  | (k, v) :: rest, e => if k = e then some v else lookupUser rest e

/-- Go map write `users[email] = v`: replace the value under an existing
key, or add the binding when the key is absent. -/
def setUser : UsersMap → String → Login → UsersMap
  | [], e, v => [(e, v)]
  | (k, w) :: rest, e, v =>
    if k = e then (e, v) :: rest else (k, w) :: setUser rest e v

/-- The parts of an incoming `*http.Request` the handlers read: the method,
the form values (Go's `r.FormValue` yields `""` for an absent field, so
these are plain strings), and the three cookies (`r.Cookie` fails when the
cookie is absent, so these are `Option`s). -/
structure Request where
  method        : String
  email         : String
  password      : String
  otp           : String
  pendingCookie : Option String
  sessionCookie : Option String
  csrfCookie    : Option String
  deriving DecidableEq, Repr

/-- A `Set-Cookie` emitted by a handler: name, value, and absolute expiry
time in seconds (the source always sets `Expires` relative to
`time.Now()`). -/
structure Cookie where
  name      : String
  value     : String
  expiresAt : Nat
  deriving DecidableEq, Repr

/-- The observable response of a handler: HTTP status, the `http.Error`
text or JSON `message`, the `qr_code_url` field (present only on
successful registration), and the cookies set. -/
structure Response where
  status    : Nat
  body      : String
  qrCodeUrl : Option String
  cookies   : List Cookie
  deriving DecidableEq, Repr

/-- Modelled from the spec: `PreAuthorize` (called at line 124 of the
source) is not among the provided source files. Spec 4.3:
"`preAuthorize(presentedPendingToken)`: true iff some Identity holds
exactly that pending token and it has not expired (issuance time + 5
minutes > now)". The expiry clause cannot be evaluated against the
source's state: the `Login` struct (lines 11-17) stores no issuance
timestamp and the `users` map is the only state available to
`PreAuthorize`, so only the token-match clause is expressible; it is a
pure read, as spec 4.3 requires. -/
def PreAuthorize (users : UsersMap) (pendingToken : String) : Bool :=
  users.any (fun p => p.2.Pending_2fa_Token == pendingToken)

/-- Modelled from the spec: `Authorize` (called at lines 200 and 224 of
the source) is not among the provided source files. Spec 4.3:
"`authorize(presentedSessionToken, presentedCsrfToken)`: true iff some
Identity holds both tokens simultaneously (exact match on both)"; a
missing cookie presents no token and fails; it is a pure read. -/
def Authorize (users : UsersMap) (sessionCookie csrfCookie : Option String) : Bool :=
  match sessionCookie, csrfCookie with
  | some st, some ct =>
    users.any (fun p => p.2.SessionToken == st && p.2.CSRFToken == ct)
  | _, _ => false

/-- Outcome of the `register` handler: a response together with the
resulting store, or termination of the whole process — the source calls
`log.Fatal` (line 56) when `generateSecretKey` fails, which exits the
process rather than answering the request. -/
inductive RegisterOutcome where
  | respond (resp : Response) (users : UsersMap)
  | fatalExit
  deriving DecidableEq, Repr

/-- The `register` handler (lines 30-68). `hash` stands for
`hashedPassword` (whose error return is discarded at line 52, so it is
total here) and `secretGen` for the result of `generateSecretKey(email)`:
`some (secret, qrURL)` on success, `none` for the error case that the
source answers with `log.Fatal`. -/
def register (hash : String → String) (secretGen : Option (String × String))
    (users : UsersMap) (r : Request) : RegisterOutcome :=
  if r.method ≠ "POST" then
    .respond ⟨405, "Method not allowed", none, []⟩ users
  else if r.email.length = 0 ∨ r.password.length = 0 then
    .respond ⟨400, "email or password is empty", none, []⟩ users
  else if (lookupUser users r.email).isSome then
    .respond ⟨400, "email already exists", none, []⟩ users
  else
    match secretGen with
    | none => .fatalExit
    | some (secret, qrURL) =>
      .respond
        ⟨200, "Registration successful. Please setup TOTP Authentication.",
          some qrURL, []⟩
        (setUser users r.email ⟨hash r.password, "", "", "", secret⟩)

/-- The `login` handler (lines 70-105). `checkPasswordHash` is the missing
password verifier, passed as a parameter; `newPendingToken` stands for the
`generateToken(32)` result. The stored record is rebuilt with only
`HashedPassword`, `Pending_2fa_Token` and `TOTPSecret` (line 90), so
`SessionToken` and `CSRFToken` take the zero value `""`. -/
def login (checkPasswordHash : String → String → Bool) (newPendingToken : String)
    (users : UsersMap) (r : Request) (now : Nat) : Response × UsersMap :=
  if r.method ≠ "POST" then
    (⟨405, "Method not allowed", none, []⟩, users)
  else
    match lookupUser users r.email with
    | none => (⟨401, "Invalid email or password", none, []⟩, users)
    | some user =>
      if !checkPasswordHash r.password user.HashedPassword then
        (⟨401, "Invalid email or password", none, []⟩, users)
      else
        (⟨200,
           "Email and password validated. You have 5 minutes to complete TOTP Authentication.",
           none, [⟨"pending_2fa_token", newPendingToken, now + 5 * 60⟩]⟩,
         setUser users r.email
           ⟨user.HashedPassword, "", "", newPendingToken, user.TOTPSecret⟩)

/-- The `twoFactor` handler (lines 107-189). `verifyTOTP` is the missing
TOTP verifier; `newSessionToken` and `newCsrfToken` stand for the two
`generateToken(32)` results. The linear scan of lines 132-137 sets
`user = &u` where `u` is the range-loop copy of the map value, so the
assignments `user.SessionToken = ...`, `user.CSRFToken = ...`,
`user.Pending_2fa_Token = ""` (lines 173-175) mutate that copy and the
`users` map is never written: the embedding therefore returns the store
unchanged on every path. -/
def twoFactor (verifyTOTP : String → String → Bool)
    (newSessionToken newCsrfToken : String)
    (users : UsersMap) (r : Request) (now : Nat) : Response × UsersMap :=
  if r.method ≠ "POST" then
    (⟨405, "Method not allowed", none, []⟩, users)
  else
    match r.pendingCookie with
    | none => (⟨401, "Unauthorized", none, []⟩, users)
    | some pendingToken =>
      if pendingToken = "" then
        (⟨401, "Unauthorized", none, []⟩, users)
      else if !PreAuthorize users pendingToken then
        (⟨401, "Unauthorized", none, []⟩, users)
      else
        match (users.map Prod.snd).find?
            (fun u => u.Pending_2fa_Token == pendingToken) with
        | none => (⟨401, "Unauthorized", none, []⟩, users)
        | some user =>
          if !verifyTOTP user.TOTPSecret r.otp then
            (⟨401, "Unauthorized", none, []⟩, users)
          else
            (⟨200, "TOTP Authentication Successful.", none,
               [⟨"session_token", newSessionToken, now + 24 * 60 * 60⟩,
                ⟨"csrf_token", newCsrfToken, now + 24 * 60 * 60⟩,
                ⟨"pending_2fa_token", "", now⟩]⟩,
             users)

/-- The `protected` handler (lines 191-213); named `protected` in the
source, which is a reserved word in Lean. It only reads the store. -/
def protectedHandler (users : UsersMap) (r : Request) : Response × UsersMap :=
  if r.method ≠ "POST" then
    (⟨405, "Method not allowed", none, []⟩, users)
  else if !Authorize users r.sessionCookie r.csrfCookie then
    (⟨401, "Unauthorized", none, []⟩, users)
  else
    (⟨200, "Protected route successfully accessed.", none, []⟩, users)

/-- The `logout` handler (lines 215-259). Here the source reads the map
value into a local, clears `SessionToken` and `CSRFToken` on it, and
writes it back with `users[email] = user` (line 239), so this clearing
does reach the store. -/
def logout (users : UsersMap) (r : Request) (now : Nat) : Response × UsersMap :=
  if r.method ≠ "POST" then
    (⟨405, "Method not allowed", none, []⟩, users)
  else if !Authorize users r.sessionCookie r.csrfCookie then
    (⟨401, "Unauthorized", none, []⟩, users)
  else
    match lookupUser users r.email with
    | none => (⟨404, "User not found", none, []⟩, users)
    | some user =>
      (⟨200, "Logged Out", none,
         [⟨"session_token", "", now⟩, ⟨"csrf_token", "", now⟩]⟩,
       setUser users r.email
         ⟨user.HashedPassword, "", "", user.Pending_2fa_Token, user.TOTPSecret⟩)

/-! Concrete sample collaborators, stores and requests used by the
counterexamples and witnesses below. -/

/-- A sample password hasher (stands for `hashedPassword`): every sample
digest is the fixed string `"h"`. -/
def hashSample : String → String := fun _ => "h"

/-- A sample password verifier (stands for `checkPasswordHash`): accepts
exactly the password `"pw1"` against the digest `"h"`. -/
def checkSample : String → String → Bool :=
  fun password digest => digest == "h" && password == "pw1"

/-- A sample TOTP verifier (stands for `verifyTOTP`): accepts exactly the
code `"123456"` against the secret `"SEC"`. -/
def vtSample : String → String → Bool :=
  fun secret code => secret == "SEC" && code == "123456"

/-- A store with one freshly registered user: digest `"h"`, TOTP secret
`"SEC"`, no tokens. -/
def sReg : UsersMap := [("a@x.com", ⟨"h", "", "", "", "SEC"⟩)]

/-- A store with one user holding the pending token `"P"`. -/
def sPend : UsersMap := [("a@x.com", ⟨"h", "", "", "P", "SEC"⟩)]

/-- A store with one user holding an authenticated session: session token
`"S1"`, CSRF token `"C1"`. -/
def sAuthed : UsersMap := [("a@x.com", ⟨"h", "S1", "C1", "", "SEC"⟩)]

/-- A registration/login request for `a@x.com` with password `"pw1"`. -/
def rCred : Request := ⟨"POST", "a@x.com", "pw1", "", none, none, none⟩

/-- A 2FA request presenting pending cookie `"P"` and the correct OTP. -/
def r2fa : Request := ⟨"POST", "", "", "123456", some "P", none, none⟩

/-- A 2FA request presenting pending cookie `"P"` and a wrong OTP. -/
def r2faBad : Request := ⟨"POST", "", "", "000000", some "P", none, none⟩

/-- A logout/protected request for `a@x.com` presenting session cookie
`"S1"` and CSRF cookie `"C1"`. -/
def rLogout : Request := ⟨"POST", "a@x.com", "", "", none, some "S1", some "C1"⟩

/-- A GET request (non-POST) carrying the same fields as `rCred`. -/
def rGet : Request := ⟨"GET", "a@x.com", "pw1", "", none, none, none⟩

/-- A login request for the unregistered email `b@x.com`. -/
def rUnknown : Request := ⟨"POST", "b@x.com", "pw1", "", none, none, none⟩

/-- A login request for `a@x.com` with a wrong password. -/
def rWrongPw : Request := ⟨"POST", "a@x.com", "pw0", "", none, none, none⟩

/-- A record has its session pair in step: `SessionToken` is set (nonempty)
iff `CSRFToken` is set. -/
def tokensPaired (u : Login) : Prop :=
  (u.SessionToken = "" ↔ u.CSRFToken = "")

instance (u : Login) : Decidable (tokensPaired u) := by
  unfold tokensPaired; infer_instance

/-- Store invariant: every identity has its session pair in step. -/
def PairedInv (users : UsersMap) : Prop :=
  ∀ p ∈ users, tokensPaired p.2

instance (users : UsersMap) : Decidable (PairedInv users) := by
  unfold PairedInv; infer_instance

/-! Helper lemmas about the store operations. -/

/-- A successful map read returns a binding of the list. -/
theorem lookupUser_mem {s : UsersMap} {e : String} {u : Login}
    (h : lookupUser s e = some u) : (e, u) ∈ s := by
  induction s with
  | nil => simp [lookupUser] at h
  | cons p rest ih =>
    obtain ⟨k, v⟩ := p
    by_cases hk : k = e
    · subst hk
      simp [lookupUser] at h
      simp [h]
    · simp [lookupUser, hk] at h
      exact List.mem_cons_of_mem _ (ih h)

/-- Reading back a key just written returns the written value. -/
theorem lookupUser_setUser_self (s : UsersMap) (e : String) (v : Login) :
    lookupUser (setUser s e v) e = some v := by
  induction s with
  | nil => simp [setUser, lookupUser]
  | cons p rest ih =>
    obtain ⟨k, w⟩ := p
    by_cases hk : k = e
    · simp [setUser, hk, lookupUser]
    · simp [setUser, hk, lookupUser, ih]

/-- Every binding of an updated store is the new binding or one of the old
ones. -/
theorem mem_setUser {s : UsersMap} {e : String} {v : Login} {p : String × Login}
    (h : p ∈ setUser s e v) : p = (e, v) ∨ p ∈ s := by
  induction s with
  | nil => simpa [setUser] using h
  | cons q rest ih =>
    obtain ⟨k, w⟩ := q
    by_cases hk : k = e
    · rcases (by simpa [setUser, hk] using h : p = (e, v) ∨ p ∈ rest) with h' | h'
      · exact Or.inl h'
      · exact Or.inr (List.mem_cons_of_mem _ h')
    · rcases (by simpa [setUser, hk] using h : p = (k, w) ∨ p ∈ setUser rest e v) with h' | h'
      · exact Or.inr (by simp [h'])
      · rcases ih h' with h'' | h''
        · exact Or.inl h''
        · exact Or.inr (List.mem_cons_of_mem _ h'')

/-- With distinct keys, a binding of the updated store is the new binding
or an old binding whose key differs from the updated key. -/
theorem mem_setUser_nodup {s : UsersMap} {e : String} {v : Login}
    {p : String × Login} (hnd : (s.map Prod.fst).Nodup)
    (h : p ∈ setUser s e v) : p = (e, v) ∨ (p ∈ s ∧ p.1 ≠ e) := by
  induction s with
  | nil => simp [setUser] at h; exact Or.inl h
  | cons q rest ih =>
    obtain ⟨k, w⟩ := q
    simp only [List.map_cons, List.nodup_cons] at hnd
    by_cases hk : k = e
    · subst hk
      rcases (by simpa [setUser] using h : p = (k, v) ∨ p ∈ rest) with h' | h'
      · exact Or.inl h'
      · refine Or.inr ⟨List.mem_cons_of_mem _ h', ?_⟩
        intro hpk
        exact hnd.1 (hpk ▸ List.mem_map_of_mem Prod.fst h')
    · rcases (by simpa [setUser, hk] using h : p = (k, w) ∨ p ∈ setUser rest e v) with h' | h'
      · exact Or.inr ⟨by simp [h'], by simp [h', hk]⟩
      · rcases ih hnd.2 h' with h'' | h''
        · exact Or.inl h''
        · exact Or.inr ⟨List.mem_cons_of_mem _ h''.1, h''.2⟩

/-- Updating a store that satisfies the pairing invariant with a paired
record preserves the invariant. -/
theorem PairedInv_setUser {s : UsersMap} {e : String} {v : Login}
    (hs : PairedInv s) (hv : tokensPaired v) : PairedInv (setUser s e v) := by
  intro p hp
  rcases mem_setUser hp with h | h
  · rw [h]; exact hv
  · exact hs p h

/-- The `twoFactor` handler never changes the store: every failure path
returns early, and the success path assigns the fresh tokens to the
range-loop copy of the record, never writing the map. -/
theorem twoFactor_store_eq (vt : String → String → Bool) (ns nc : String)
    (s : UsersMap) (r : Request) (now : Nat) :
    (twoFactor vt ns nc s r now).2 = s := by
  unfold twoFactor
  repeat' split
  all_goals rfl

/-- The `protected` handler never changes the store. -/
theorem protectedHandler_store_eq (s : UsersMap) (r : Request) :
    (protectedHandler s r).2 = s := by
  unfold protectedHandler
  repeat' split
  all_goals rfl

/-- `Authorize` holds exactly when some identity carries both presented
tokens. -/
theorem Authorize_eq_true_iff (s : UsersMap) (st ct : String) :
    Authorize s (some st) (some ct) = true ↔
      ∃ p ∈ s, p.2.SessionToken = st ∧ p.2.CSRFToken = ct := by
  simp [Authorize, List.any_eq_true]

/-! Claim theorems. -/

/-- C1: the claim says a correct OTP against the pending token stores the
fresh session and CSRF tokens on the identity and clears its pending token
so a replay fails with Unauthorized. In the source the scan `user = &u`
aliases the range-loop copy, so the store is never written: the call
succeeds (status 200), the stored identity is unchanged (no session/CSRF
token stored, pending token still `"P"`), and replaying the same pending
token succeeds again with status 200 instead of 401. -/
theorem twoFactor_success_never_stores_tokens :
    (twoFactor vtSample "S1" "C1" sPend r2fa 0).1.status = 200
    ∧ (twoFactor vtSample "S1" "C1" sPend r2fa 0).2 = sPend
    ∧ lookupUser (twoFactor vtSample "S1" "C1" sPend r2fa 0).2 "a@x.com"
        = some ⟨"h", "", "", "P", "SEC"⟩
    ∧ (twoFactor vtSample "S2" "C2"
        (twoFactor vtSample "S1" "C1" sPend r2fa 0).2 r2fa 0).1.status = 200 :=
  ⟨rfl, rfl, rfl, rfl⟩

/-- C2: the claim says a pending token presented more than 5 minutes after
issuance is rejected with Unauthorized, checked against a stored issuance
timestamp. The `Login` struct stores no issuance timestamp; the 5-minute
limit exists only as the expiry of the cookie issued by `login` (here:
issued at time 0, cookie expires at 300). A client that presents the
pending token value at time 100000 — far past the window — with a correct
OTP is accepted with status 200, not rejected with 401. -/
theorem twoFactor_accepts_expired_pending :
    (login checkSample "P" sReg rCred 0).1.cookies
        = [⟨"pending_2fa_token", "P", 300⟩]
    ∧ (login checkSample "P" sReg rCred 0).2 = sPend
    ∧ (twoFactor vtSample "S1" "C1" (login checkSample "P" sReg rCred 0).2
        r2fa 100000).1.status = 200 :=
  ⟨rfl, rfl, rfl⟩

/-- C3 counterexample: a resolution attempt with a wrong OTP is rejected
with 401 and leaves the identity still holding the pending token `"P"`,
refuting the claim that every attempted resolution clears it. -/
theorem twoFactor_failed_attempt_keeps_pending :
    (twoFactor vtSample "S1" "C1" sPend r2faBad 0).1.status = 401
    ∧ lookupUser (twoFactor vtSample "S1" "C1" sPend r2faBad 0).2 "a@x.com"
        = some ⟨"h", "", "", "P", "SEC"⟩ :=
  ⟨rfl, rfl⟩

/-- C3 amended: no resolution attempt at the 2FA step modifies the
identity store at all — failed attempts return early, and the success
path's clearing is applied to a range-loop copy of the identity — so every
identity keeps whatever pending token it had. -/
theorem twoFactor_never_clears_pending (vt : String → String → Bool)
    (ns nc : String) (s : UsersMap) (r : Request) (now : Nat) :
    (twoFactor vt ns nc s r now).2 = s :=
  twoFactor_store_eq vt ns nc s r now

/-- C6: the claim says a `SecondFactorProvider` failure during `register`
fails only that request and the process continues serving with the store
unchanged. The source instead calls `log.Fatal` (line 56) when
`generateSecretKey` errs, terminating the entire process: at a fresh
registration with a failing secret generator the outcome is process
exit, not an error response. -/
theorem register_secret_failure_kills_process :
    register hashSample none [] rCred = RegisterOutcome.fatalExit :=
  rfl

/-- C4 counterexample: registering an already-present email answers with
status 400 (BadRequest) and body `"email already exists"` — not Conflict
(409) — leaving the store unchanged. -/
theorem register_duplicate_not_conflict :
    register hashSample (some ("SEC2", "qr2")) sReg rCred
      = RegisterOutcome.respond ⟨400, "email already exists", none, []⟩ sReg :=
  rfl

/-- C4 amended: for every email already present in the store, `register`
with that email fails with BadRequest (status 400, body
`"email already exists"`), not Conflict, and the store — in particular the
existing identity — is left unchanged. -/
theorem register_duplicate_badRequest (hash : String → String)
    (secretGen : Option (String × String)) (s : UsersMap) (r : Request)
    (u : Login) (hm : r.method = "POST") (he : r.email.length ≠ 0)
    (hp : r.password.length ≠ 0) (hdup : lookupUser s r.email = some u) :
    register hash secretGen s r
      = RegisterOutcome.respond ⟨400, "email already exists", none, []⟩ s := by
  simp [register, hm, he, hp, hdup]

/-- C4 witness: the amended statement applied at a concrete duplicate
registration. -/
theorem register_duplicate_badRequest_wit :
    register hashSample (some ("SEC3", "qr3")) sReg rCred
      = RegisterOutcome.respond ⟨400, "email already exists", none, []⟩ sReg :=
  register_duplicate_badRequest hashSample (some ("SEC3", "qr3")) sReg rCred
    ⟨"h", "", "", "", "SEC"⟩ rfl (by decide) (by decide) rfl

/-- C5: a login with an unknown email and a login with a known email but
non-verifying password produce the same response — status 401, body
`"Invalid email or password"`, no cookies — and leave the store unchanged,
so the two failure causes are observationally indistinguishable. -/
theorem login_uniform_unauthorized (check : String → String → Bool)
    (np : String) (s : UsersMap) (r1 r2 : Request) (now : Nat) (u : Login)
    (hm1 : r1.method = "POST") (hm2 : r2.method = "POST")
    (h1 : lookupUser s r1.email = none)
    (h2 : lookupUser s r2.email = some u)
    (hpw : check r2.password u.HashedPassword = false) :
    (login check np s r1 now).1 = (login check np s r2 now).1
    ∧ (login check np s r1 now).1 = ⟨401, "Invalid email or password", none, []⟩
    ∧ (login check np s r1 now).2 = s
    ∧ (login check np s r2 now).2 = s := by
  have e1 : login check np s r1 now
      = (⟨401, "Invalid email or password", none, []⟩, s) := by
    simp [login, hm1, h1]
  have e2 : login check np s r2 now
      = (⟨401, "Invalid email or password", none, []⟩, s) := by
    simp [login, hm2, h2, hpw]
  rw [e1, e2]
  exact ⟨rfl, rfl, rfl, rfl⟩

/-- C5 witness: the uniform-error statement applied to the concrete pair
unknown email / wrong password against the one-user store. -/
theorem login_uniform_unauthorized_wit :
    (login checkSample "P" sReg rUnknown 0).1
        = (login checkSample "P" sReg rWrongPw 0).1
    ∧ (login checkSample "P" sReg rUnknown 0).1
        = ⟨401, "Invalid email or password", none, []⟩
    ∧ (login checkSample "P" sReg rUnknown 0).2 = sReg
    ∧ (login checkSample "P" sReg rWrongPw 0).2 = sReg :=
  login_uniform_unauthorized checkSample "P" sReg rUnknown rWrongPw 0
    ⟨"h", "", "", "", "SEC"⟩ rfl rfl rfl rfl rfl

/-- C9: every handler answers a non-POST request with status 405 and body
`"Method not allowed"` and leaves the store untouched. -/
theorem nonPost_rejected_store_unchanged (hash : String → String)
    (secretGen : Option (String × String)) (check vt : String → String → Bool)
    (np ns nc : String) (s : UsersMap) (r : Request) (now : Nat)
    (hm : r.method ≠ "POST") :
    register hash secretGen s r
        = RegisterOutcome.respond ⟨405, "Method not allowed", none, []⟩ s
    ∧ login check np s r now = (⟨405, "Method not allowed", none, []⟩, s)
    ∧ twoFactor vt ns nc s r now = (⟨405, "Method not allowed", none, []⟩, s)
    ∧ protectedHandler s r = (⟨405, "Method not allowed", none, []⟩, s)
    ∧ logout s r now = (⟨405, "Method not allowed", none, []⟩, s) :=
  ⟨by simp [register, hm], by simp [login, hm], by simp [twoFactor, hm],
   by simp [protectedHandler, hm], by simp [logout, hm]⟩

/-- C9 witness: the non-POST rejection applied to a concrete GET request
against the one-user store. -/
theorem nonPost_rejected_store_unchanged_wit :
    register hashSample (some ("SEC4", "qr4")) sReg rGet
        = RegisterOutcome.respond ⟨405, "Method not allowed", none, []⟩ sReg
    ∧ login checkSample "P" sReg rGet 0
        = (⟨405, "Method not allowed", none, []⟩, sReg)
    ∧ twoFactor vtSample "S1" "C1" sReg rGet 0
        = (⟨405, "Method not allowed", none, []⟩, sReg)
    ∧ protectedHandler sReg rGet
        = (⟨405, "Method not allowed", none, []⟩, sReg)
    ∧ logout sReg rGet 0 = (⟨405, "Method not allowed", none, []⟩, sReg) :=
  nonPost_rejected_store_unchanged hashSample (some ("SEC4", "qr4"))
    checkSample vtSample "P" "S1" "C1" sReg rGet 0 (by decide)

/-- C10: a successful first login step rebuilds the stored identity from
only the old digest, the old TOTP secret and the fresh pending token, so
its `SessionToken` and `CSRFToken` come out as the empty string — an
active session is silently revoked by a re-login. -/
theorem login_success_resets_session_tokens (check : String → String → Bool)
    (np : String) (s : UsersMap) (r : Request) (now : Nat) (u : Login)
    (hm : r.method = "POST") (hu : lookupUser s r.email = some u)
    (hpw : check r.password u.HashedPassword = true) :
    (login check np s r now).2
        = setUser s r.email ⟨u.HashedPassword, "", "", np, u.TOTPSecret⟩
    ∧ lookupUser (login check np s r now).2 r.email
        = some ⟨u.HashedPassword, "", "", np, u.TOTPSecret⟩ := by
  have e : (login check np s r now).2
      = setUser s r.email ⟨u.HashedPassword, "", "", np, u.TOTPSecret⟩ := by
    simp [login, hm, hu, hpw]
  exact ⟨e, by rw [e]; exact lookupUser_setUser_self s r.email _⟩

/-- C10 witness: re-login of a user holding an active session (`"S1"`,
`"C1"`): the stored identity afterwards carries the new pending token and
empty session and CSRF tokens. -/
theorem login_success_resets_session_tokens_wit :
    (login checkSample "P2" sAuthed rCred 0).2
        = setUser sAuthed "a@x.com" ⟨"h", "", "", "P2", "SEC"⟩
    ∧ lookupUser (login checkSample "P2" sAuthed rCred 0).2 "a@x.com"
        = some ⟨"h", "", "", "P2", "SEC"⟩ :=
  login_success_resets_session_tokens checkSample "P2" sAuthed rCred 0
    ⟨"h", "S1", "C1", "", "SEC"⟩ rfl rfl rfl

/-- C7: a successful logout for an email clears both `SessionToken` and
`CSRFToken` on the identity stored under that email, and a subsequent
`protected` call presenting the same, now-stale, session and CSRF cookies
fails with 401 — provided the stale session token was nonempty and only
that identity carried the stale pair (the map keys being distinct, as in a
Go map). -/
theorem logout_revokes_session (s : UsersMap) (r : Request) (now : Nat)
    (u : Login) (st ct : String)
    (hm : r.method = "POST")
    (hsc : r.sessionCookie = some st) (hcc : r.csrfCookie = some ct)
    (hu : lookupUser s r.email = some u)
    (hst : u.SessionToken = st) (hct : u.CSRFToken = ct)
    (hne : st ≠ "")
    (hnd : (s.map Prod.fst).Nodup)
    (honly : ∀ p ∈ s, p.2.SessionToken = st → p.2.CSRFToken = ct → p.1 = r.email) :
    (logout s r now).1.status = 200
    ∧ lookupUser (logout s r now).2 r.email
        = some ⟨u.HashedPassword, "", "", u.Pending_2fa_Token, u.TOTPSecret⟩
    ∧ (protectedHandler (logout s r now).2 r).1.status = 401 := by
  have hmem : (r.email, u) ∈ s := lookupUser_mem hu
  have hAuth : Authorize s r.sessionCookie r.csrfCookie = true := by
    rw [hsc, hcc, Authorize_eq_true_iff]
    exact ⟨(r.email, u), hmem, hst, hct⟩
  have elogout : logout s r now
      = (⟨200, "Logged Out", none,
           [⟨"session_token", "", now⟩, ⟨"csrf_token", "", now⟩]⟩,
         setUser s r.email
           ⟨u.HashedPassword, "", "", u.Pending_2fa_Token, u.TOTPSecret⟩) := by
    simp [logout, hm, hAuth, hu]
  have hNoAuth : Authorize
      (setUser s r.email
        ⟨u.HashedPassword, "", "", u.Pending_2fa_Token, u.TOTPSecret⟩)
      (some st) (some ct) = false := by
    rw [Bool.eq_false_iff, Ne, Authorize_eq_true_iff]
    rintro ⟨p, hp, h1, h2⟩
    rcases mem_setUser_nodup hnd hp with hcase | ⟨hps, hpne⟩
    · rw [hcase] at h1
      exact hne h1.symm
    · exact hpne (honly p hps h1 h2)
  refine ⟨by rw [elogout], ?_, ?_⟩
  · rw [elogout]
    exact lookupUser_setUser_self s r.email _
  · rw [elogout]
    simp [protectedHandler, hm, hsc, hcc, hNoAuth]

/-- C7 witness: logging out the one authenticated user and then calling
`protected` with the same stale cookies. -/
theorem logout_revokes_session_wit :
    (logout sAuthed rLogout 0).1.status = 200
    ∧ lookupUser (logout sAuthed rLogout 0).2 "a@x.com"
        = some ⟨"h", "", "", "", "SEC"⟩
    ∧ (protectedHandler (logout sAuthed rLogout 0).2 rLogout).1.status = 401 :=
  logout_revokes_session sAuthed rLogout 0 ⟨"h", "S1", "C1", "", "SEC"⟩
    "S1" "C1" rfl rfl rfl rfl rfl rfl (by decide) (by decide) (by decide)

/-- C8: every operation preserves the invariant that an identity's
`SessionToken` is set iff its `CSRFToken` is set: `register` and `login`
store records with both empty, `twoFactor` and `protected` never write the
store, and `logout` clears both together. -/
theorem authOps_preserve_tokensPaired (hash : String → String)
    (secretGen : Option (String × String)) (check vt : String → String → Bool)
    (np ns nc : String) (s : UsersMap) (r : Request) (now : Nat)
    (hInv : PairedInv s) :
    (∀ resp s', register hash secretGen s r = RegisterOutcome.respond resp s'
       → PairedInv s')
    ∧ PairedInv (login check np s r now).2
    ∧ PairedInv (twoFactor vt ns nc s r now).2
    ∧ PairedInv (protectedHandler s r).2
    ∧ PairedInv (logout s r now).2 := by
  refine ⟨?_, ?_, ?_, ?_, ?_⟩
  · intro resp s' h
    unfold register at h
    repeat' split at h
    all_goals first
      | exact RegisterOutcome.noConfusion h
      | (injection h with h1 h2; subst h2;
         first
           | exact hInv
           | exact PairedInv_setUser hInv (by simp [tokensPaired]))
  · unfold login
    repeat' split
    all_goals first
      | exact hInv
      | exact PairedInv_setUser hInv (by simp [tokensPaired])
  · rw [twoFactor_store_eq]
    exact hInv
  · rw [protectedHandler_store_eq]
    exact hInv
  · unfold logout
    repeat' split
    all_goals first
      | exact hInv
      | exact PairedInv_setUser hInv (by simp [tokensPaired])

/-- C8 witness: the preservation statement applied to the one-user store
and the concrete credential request. -/
theorem authOps_preserve_tokensPaired_wit :
    PairedInv sReg
    ∧ ((∀ resp s',
          register hashSample (some ("SEC5", "qr5")) sReg rCred
            = RegisterOutcome.respond resp s' → PairedInv s')
       ∧ PairedInv (login checkSample "P" sReg rCred 0).2
       ∧ PairedInv (twoFactor vtSample "S1" "C1" sReg rCred 0).2
       ∧ PairedInv (protectedHandler sReg rCred).2
       ∧ PairedInv (logout sReg rCred 0).2) :=
  ⟨by decide,
   authOps_preserve_tokensPaired hashSample (some ("SEC5", "qr5")) checkSample
     vtSample "P" "S1" "C1" sReg rCred 0 (by decide)⟩

end Server
